import Mathlib

/-!
Verification of the command-line assistant `ai.py` (natural-language → shell
command via a local Ollama server).  The Python source is shallowly embedded:
its pure string processing (response normalization, destructive-command
classification, configuration resolution) becomes Lean functions over
`List Char` / `String`, and the `main` control flow becomes a function from
the run-mode flags and modelled external outcomes to a record of observable
results (exit code, whether the executor ran, whether a prompt was shown).
-/

namespace AiCli

/-! ## Python string primitives -/

/-- Characters removed by Python `str.strip()` (ASCII whitespace). -/
def isPyWs (c : Char) : Bool :=
  c == ' ' || c == '\t' || c == '\n' || c == '\r' ||
    c == Char.ofNat 11 || c == Char.ofNat 12

/-- Python `str.strip()`: drop leading and trailing whitespace. -/
def stripChars (l : List Char) : List Char :=
  List.rdropWhile isPyWs (List.dropWhile isPyWs l)

/-- Python `str.lower()` (ASCII). -/
def pyLowerL (l : List Char) : List Char := l.map Char.toLower

/-- Python `str.endswith` on character lists. -/
def endsWithL (pat l : List Char) : Bool := pat.reverse.isPrefixOf l.reverse

/-- Python substring membership `pat in s`. -/
def containsSub (l pat : List Char) : Bool :=
  l.tails.any (fun t => pat.isPrefixOf t)

/-- Python `s.split(chr(10))`: split on newline, keeping empty segments. -/
def splitLines : List Char → List (List Char)
  | [] => [[]]
  | c :: cs =>
    match splitLines cs with
    | [] => [[]]
    | r :: rs => if c = '\n' then [] :: r :: rs else (c :: r) :: rs

/-! ## ResponseNormalizer (the cleanup loop of `query_ollama`, src/ai.py:108-131) -/

/-- The tuple of explanatory prefixes skipped by the cleanup loop
(src/ai.py:116): a stripped line whose lowercase form starts with one of
these is not considered a candidate. -/
def SKIP_PREFIXES : List (List Char) :=
  [("here is").data, ("the command is").data, ("`").data, ("#").data]

/-- src/ai.py:116 — the skip condition of the cleanup loop. -/
def shouldSkipL (l : List Char) : Bool :=
  SKIP_PREFIXES.any (fun p => p.isPrefixOf (pyLowerL l))

/-- src/ai.py:117-123 — strip a wrapping triple-backtick fence (with optional
`bash` tag) or a wrapping single backtick from a candidate line. -/
def transformLine (clean : List Char) : List Char :=
  if (("```").data.isPrefixOf clean) && endsWithL (("```").data) clean then
    let c := stripChars ((clean.drop 3).rdrop 3)
    if (("bash").data.isPrefixOf (pyLowerL c)) then stripChars (c.drop 4) else c
  else if (("`").data.isPrefixOf clean) && endsWithL (("`").data) clean then
    stripChars ((clean.drop 1).rdrop 1)
  else clean

/-- src/ai.py:112-124 — the for-loop: first stripped line that is nonempty and
not skipped becomes the candidate (after `transformLine`); `[]` plays the role
of Python's initial `potential_command = ""`. -/
def extractCandidate : List (List Char) → List Char
  | [] => []
  | line :: rest =>
    let clean := stripChars line
    if !clean.isEmpty && !shouldSkipL clean then transformLine clean
    else extractCandidate rest

/-- src/ai.py:109-131 — normalization of the JSON `response` field:
strip, split into lines, extract the candidate, and fail if the candidate is
empty or contains the sentinel substring. -/
def normalizeResponse (raw : String) : Option String :=
  let command := stripChars raw.data
  let potential := extractCandidate (splitLines command)
  if potential.isEmpty || containsSub potential (("ERROR:").data) then none
  else some (String.mk potential)

/-! ## SafetyClassifier (`is_destructive`, src/ai.py:153-174) -/

/-- src/ai.py:57-61 — the fixed destructive-command table. -/
def DESTRUCTIVE_COMMANDS : List String :=
  ["rm", "mv", "kill", "pkill", "killall", "shutdown", "reboot", "halt",
   "shred", "dd", "mkfs", "fdisk", "userdel", "groupdel", "chmod", "chown",
   "sudo", "su", "docker rm", "docker rmi", "kubectl delete"]

/-- Characters treated as token separators by `shlex` (`shlex.whitespace`). -/
def isShlexWs (c : Char) : Bool :=
  c == ' ' || c == '\t' || c == '\r' || c == '\n'

/-- Lexer modes of `shlex` in POSIX mode with `whitespace_split=True`:
outside quotes, inside single / double quotes, after a backslash outside /
inside double quotes. -/
inductive ShMode where
  | norm
  | sq
  | dq
  | escN
  | escD
  deriving DecidableEq

def sqChar : Char := Char.ofNat 39
def dqChar : Char := Char.ofNat 34
def bsChar : Char := Char.ofNat 92
def btChar : Char := Char.ofNat 96

/-- One-pass embedding of CPython `shlex.split` (POSIX mode,
`whitespace_split=True`, no comment characters): `cur` is the token in
progress (`some` as soon as a quote, escape or ordinary character started
it — a quoted empty string still yields a token), `acc` the finished tokens
in reverse.  `none` is the `ValueError` raised on an unterminated quote
("No closing quotation") or a trailing escape ("No escaped character"). -/
def shlexCore : List Char → ShMode → Option (List Char) → List (List Char) →
    Option (List (List Char))
  | [], .norm, none, acc => some acc.reverse
  | [], .norm, some t, acc => some (t :: acc).reverse
  | [], .sq, _, _ => none
  | [], .dq, _, _ => none
  | [], .escN, _, _ => none
  | [], .escD, _, _ => none
  | c :: cs, .norm, cur, acc =>
    if isShlexWs c then
      match cur with
      | none => shlexCore cs .norm none acc
      | some t => shlexCore cs .norm none (t :: acc)
    else if c = sqChar then shlexCore cs .sq (some (cur.getD [])) acc
    else if c = dqChar then shlexCore cs .dq (some (cur.getD [])) acc
    else if c = bsChar then shlexCore cs .escN (some (cur.getD [])) acc
    else shlexCore cs .norm (some (cur.getD [] ++ [c])) acc
  | c :: cs, .sq, cur, acc =>
    if c = sqChar then shlexCore cs .norm cur acc
    else shlexCore cs .sq (some (cur.getD [] ++ [c])) acc
  | c :: cs, .dq, cur, acc =>
    if c = dqChar then shlexCore cs .norm cur acc
    else if c = bsChar then shlexCore cs .escD cur acc
    else shlexCore cs .dq (some (cur.getD [] ++ [c])) acc
  | c :: cs, .escN, cur, acc => shlexCore cs .norm (some (cur.getD [] ++ [c])) acc
  | c :: cs, .escD, cur, acc =>
    if c = dqChar || c = bsChar then shlexCore cs .dq (some (cur.getD [] ++ [c])) acc
    else shlexCore cs .dq (some (cur.getD [] ++ [bsChar, c])) acc

/-- `shlex.split(command)`: `none` models the `ValueError` on unbalanced
quoting (src/ai.py:171). -/
def shlexSplit (s : String) : Option (List String) :=
  (shlexCore s.data .norm none []).map (fun ts => ts.map String.mk)

/-- Reasons of the spec's `DestructiveVerdict`; each corresponds to one
return path of `is_destructive` (src/ai.py:153-174). -/
inductive DVReason where
  | NONE
  | ELEVATED_PRIVILEGE
  | MATCHED_KEYWORD
  | UNPARSEABLE
  deriving DecidableEq

structure DestructiveVerdict where
  isDestructive : Bool
  reason : DVReason
  deriving DecidableEq

/-- src/ai.py:153-174 — `is_destructive`, enriched with the reason naming the
branch that produced the boolean (the branches are observably distinct in the
source through their printed warnings): empty command → not destructive;
tokenization failure → destructive (UNPARSEABLE); first token `sudo` with a
further token → destructive (ELEVATED_PRIVILEGE); otherwise the table scan of
src/ai.py:168-170 (exact first-token match, or the stripped command starting
with an entry followed by a space) → destructive (MATCHED_KEYWORD). -/
def classify (command : String) : DestructiveVerdict :=
  if command = "" then ⟨false, .NONE⟩
  else
    match shlexSplit command with
    | none => ⟨true, .UNPARSEABLE⟩
    | some [] => ⟨false, .NONE⟩
    | some (first :: rest) =>
      if first == "sudo" && !rest.isEmpty then ⟨true, .ELEVATED_PRIVILEGE⟩
      else if DESTRUCTIVE_COMMANDS.any (fun d =>
          first == d || (d ++ " ").data.isPrefixOf (stripChars command.data)) then
        ⟨true, .MATCHED_KEYWORD⟩
      else ⟨false, .NONE⟩

/-- The boolean returned by `is_destructive` (src/ai.py:153-174). -/
def is_destructive (command : String) : Bool := (classify command).isDestructive

/-! ## InferenceClient (`query_ollama`, src/ai.py:65-151) -/

/-- Outcome of the single HTTP POST to the inference server, as distinguished
by the exception handlers of `query_ollama` (src/ai.py:133-151): connection
failure, timeout, other request/HTTP-status error, JSON-decode failure, or a
decoded payload whose `response` field is `raw` (a missing field defaults to
the empty string via `data.get`). -/
inductive HttpOutcome where
  | connectionError
  | timeout
  | requestError
  | decodeError
  | ok (raw : String)
  deriving DecidableEq

/-- src/ai.py:104-151 — every failure path returns `None`; a decoded payload
goes through the normalization of src/ai.py:109-131. -/
def query_ollama (o : HttpOutcome) : Option String :=
  match o with
  | .ok raw => normalizeResponse raw
  | _ => none

/-! ## ConfirmationGate (src/ai.py:221-254) -/

/-- The single line read by `input()` at a confirmation prompt, or the
`EOFError` / `KeyboardInterrupt` raised during it. -/
inductive PromptAnswer where
  | answer (s : String)
  | interrupted
  deriving DecidableEq

/-- Python `confirm.lower()`. -/
def pyLower (s : String) : String := String.mk (pyLowerL s.data)

inductive Decision where
  | Confirmed
  | Cancelled
  deriving DecidableEq

/-- Observable result of the confirmation logic: the decision, whether an
`input()` prompt was presented, whether a destructive-command warning was
printed, and whether the process terminated inside the prompt handler via
`sys.exit(0)` (src/ai.py:234-236, 247-249). -/
structure GateResult where
  decision : Decision
  promptShown : Bool
  warned : Bool
  exitedEarly : Bool
  deriving DecidableEq

/-- `confirm.lower() == chr(121)` — acceptance test of both prompts
(src/ai.py:230, 243); an interrupt is never an acceptance. -/
def answerIsYes : PromptAnswer → Bool
  | .answer s => pyLower s == "y"
  | .interrupted => false

/-- src/ai.py:221-254 — the confirmation gate: without `-i` execution is
cancelled outright (src/ai.py:253-254); with `-i`, a destructive command
without `-y` gets a warning prompt, a destructive command with `-y` a warning
and automatic confirmation, a non-destructive command without `-y` a plain
prompt, and otherwise automatic confirmation. -/
def confirmationGate (destructive interactive yes : Bool) (inp : PromptAnswer) :
    GateResult :=
  if interactive then
    if destructive && !yes then
      match inp with
      | .answer s =>
        if pyLower s == "y" then ⟨.Confirmed, true, true, false⟩
        else ⟨.Cancelled, true, true, false⟩
      | .interrupted => ⟨.Cancelled, true, true, true⟩
    else if destructive && yes then ⟨.Confirmed, false, true, false⟩
    else if !yes then
      match inp with
      | .answer s =>
        if pyLower s == "y" then ⟨.Confirmed, true, false, false⟩
        else ⟨.Cancelled, true, false, false⟩
      | .interrupted => ⟨.Cancelled, true, false, true⟩
    else ⟨.Confirmed, false, false, false⟩
  else ⟨.Cancelled, false, false, false⟩

/-! ## Executor and `main` (src/ai.py:176-257) -/

/-- `subprocess.run` result captured by `execute_command` (src/ai.py:181). -/
structure ExecutionResult where
  stdout : String
  stderr : String
  returncode : Int
  deriving DecidableEq

/-- src/ai.py:176-191 — `execute_command` reports output and returns whether
the non-zero-exit warning of src/ai.py:188-189 was printed; it never raises
to the caller and never changes the process exit status. -/
def execute_command (res : ExecutionResult) : Bool := res.returncode != 0

/-- Observable outcome of one run of `main` (src/ai.py:195-257). -/
structure RunOutcome where
  exitCode : Nat
  executed : Bool
  promptShown : Bool
  warnedNonZero : Bool
  deriving DecidableEq

/-- src/ai.py:214-257 — the tail of `main`: exit 1 when no usable command was
generated (src/ai.py:216-217, Python's `if not command_to_run` is also true
for an empty string), otherwise run the confirmation gate and, on a confirmed
decision, the executor; the process exit status is 0 on every path past the
generation check, including the `sys.exit(0)` inside the prompt handlers. -/
def mainRun (queryResult : Option String) (interactive yes : Bool)
    (inp : PromptAnswer) (res : ExecutionResult) : RunOutcome :=
  match queryResult with
  | none => ⟨1, false, false, false⟩
  | some cmd =>
    if cmd = "" then ⟨1, false, false, false⟩
    else
      let g := confirmationGate (is_destructive cmd) interactive yes inp
      match g.decision with
      | .Confirmed => ⟨0, true, g.promptShown, execute_command res⟩
      | .Cancelled => ⟨0, false, g.promptShown, false⟩

/-! ## ConfigResolver (`load_configuration`, src/ai.py:18-47) -/

def DEFAULT_OLLAMA_API_URL : String := "http://localhost:11434/api/generate"
def DEFAULT_OLLAMA_MODEL : String := "gemma3:1b"

/-- `os.getenv` over an association-list environment. -/
def getenv (env : List (String × String)) (k : String) : Option String :=
  (env.find? (fun p => p.1 == k)).map (fun p => p.2)

/-- Modelled from the spec: `load_dotenv` (the external python-dotenv call at
src/ai.py:30, whose body is not part of this repository) populates process
environment variables from the configuration file's key=value pairs, but
"must not override variables already set in the process environment". -/
def load_dotenv (env fileVars : List (String × String)) :
    List (String × String) :=
  env ++ fileVars.filter (fun p => (getenv env p.1).isNone)

structure Config where
  apiUrl : String
  defaultModel : String
  infoDiagnostic : Bool
  deriving DecidableEq

/-- src/ai.py:18-47 — `load_configuration`: load the `.env` file if it exists
(never overriding existing environment variables), read the two recognized
variables with the compiled-in defaults as fallback, and emit the
informational diagnostic exactly when no `.env` file exists and both resolved
values equal the compiled-in defaults (src/ai.py:41-44). -/
def load_configuration (env : List (String × String)) (dotenvExists : Bool)
    (fileVars : List (String × String)) : Config :=
  let envAfter := if dotenvExists then load_dotenv env fileVars else env
  let api_url := (getenv envAfter ("OLLAMA_API_URL")).getD DEFAULT_OLLAMA_API_URL
  let default_model :=
    (getenv envAfter ("OLLAMA_DEFAULT_MODEL")).getD DEFAULT_OLLAMA_MODEL
  let using_defaults :=
    api_url == DEFAULT_OLLAMA_API_URL && default_model == DEFAULT_OLLAMA_MODEL
  ⟨api_url, default_model, !dotenvExists && using_defaults⟩

/-! ## Helper lemmas -/

lemma isPyWs_head_of_dropWhile {l : List Char} {b : Char} {bs : List Char}
    (hd : List.dropWhile isPyWs l = b :: bs) : isPyWs b = false := by
  by_contra hb
  rw [Bool.not_eq_false] at hb
  have h2 := List.dropWhile_idempotent isPyWs l
  rw [hd, List.dropWhile_cons, if_pos hb] at h2
  have h3 := (List.dropWhile_suffix (l := bs) isPyWs).length_le
  rw [h2] at h3
  simp at h3

lemma dropWhile_stripChars (l : List Char) :
    List.dropWhile isPyWs (stripChars l) = stripChars l := by
  rcases h : stripChars l with _ | ⟨b, bs⟩
  · rfl
  · obtain ⟨t, ht⟩ := List.rdropWhile_prefix isPyWs (List.dropWhile isPyWs l)
    rw [stripChars] at h
    rw [h] at ht
    have hd : List.dropWhile isPyWs l = b :: (bs ++ t) := by rw [← ht]; rfl
    have hb := isPyWs_head_of_dropWhile hd
    simp [List.dropWhile_cons, hb]

lemma stripChars_idem (l : List Char) : stripChars (stripChars l) = stripChars l := by
  show List.rdropWhile isPyWs (List.dropWhile isPyWs (stripChars l)) = stripChars l
  rw [dropWhile_stripChars]
  show List.rdropWhile isPyWs (List.rdropWhile isPyWs (List.dropWhile isPyWs l)) = _
  rw [List.rdropWhile_idempotent]
  rfl

lemma splitLines_single {l : List Char} (h : ('\n') ∉ l) : splitLines l = [l] := by
  induction l with
  | nil => rfl
  | cons c cs ih =>
    have hc : ¬ (c = '\n') := fun hh => h (by simp [hh])
    have hcs : ('\n') ∉ cs := fun hh => h (List.mem_cons_of_mem _ hh)
    simp only [splitLines, ih hcs]
    simp [hc]

lemma normalizeResponse_some {raw cmd : String}
    (h : normalizeResponse raw = some cmd) :
    cmd ≠ "" ∧ containsSub cmd.data (("ERROR:").data) = false := by
  unfold normalizeResponse at h
  dsimp only at h
  cases hcond : ((extractCandidate (splitLines (stripChars raw.data))).isEmpty
      || containsSub (extractCandidate (splitLines (stripChars raw.data)))
          (("ERROR:").data)) with
  | true =>
    rw [hcond] at h
    simp at h
  | false =>
    rw [hcond] at h
    simp only [Bool.false_eq_true, if_false, Option.some.injEq] at h
    have hparts : (extractCandidate (splitLines (stripChars raw.data))).isEmpty = false ∧
        containsSub (extractCandidate (splitLines (stripChars raw.data)))
          (("ERROR:").data) = false := by
      simpa using hcond
    subst h
    refine ⟨?_, hparts.2⟩
    intro hmk
    have hdata : (extractCandidate (splitLines (stripChars raw.data))) = [] := by
      have := congrArg String.data hmk
      simpa using this
    rw [hdata] at hparts
    simp at hparts

lemma transformLine_id {c : List Char} (hskip : shouldSkipL c = false) :
    transformLine c = c := by
  cases c with
  | nil => rfl
  | cons b bs =>
    have hbt : ((("`").data).isPrefixOf (pyLowerL (b :: bs))) = false := by
      unfold shouldSkipL at hskip
      rw [List.any_eq_false] at hskip
      exact Bool.eq_false_iff.mpr (hskip (("`").data) (by decide))
    have hb : (btChar == b) = false := by
      by_contra hcon
      rw [Bool.not_eq_false] at hcon
      have hbeq : b = btChar := (eq_of_beq hcon).symm
      rw [show ("`").data = [btChar] from by decide, hbeq] at hbt
      simp only [pyLowerL, List.map, List.isPrefixOf] at hbt
      exact absurd hbt (by decide)
    unfold transformLine
    rw [show ("```").data = btChar :: btChar :: [btChar] from by decide,
        show ("`").data = [btChar] from by decide]
    simp [List.isPrefixOf, hb]

lemma extractCandidate_single {c : List Char} (hne : c ≠ [])
    (hskip : shouldSkipL c = false) (hidem : stripChars c = c) :
    extractCandidate [c] = transformLine c := by
  have hemp : c.isEmpty = false := by
    cases c with
    | nil => exact absurd rfl hne
    | cons x xs => rfl
  unfold extractCandidate
  dsimp only
  rw [hidem, hemp, hskip]
  rfl

lemma destructive_any_iff (cmd first : String) :
    (DESTRUCTIVE_COMMANDS.any (fun d =>
        first == d || (d ++ " ").data.isPrefixOf (stripChars cmd.data))) = true ↔
      (first ∈ DESTRUCTIVE_COMMANDS ∨
        ∃ e ∈ DESTRUCTIVE_COMMANDS,
          (e ++ " ").data.isPrefixOf (stripChars cmd.data) = true) := by
  rw [List.any_eq_true]
  constructor
  · rintro ⟨e, he, hcond⟩
    rcases Bool.or_eq_true_iff.mp hcond with h1 | h2
    · left
      rw [eq_of_beq h1]
      exact he
    · right
      exact ⟨e, he, h2⟩
  · rintro (hmem | ⟨e, he, hpre⟩)
    · exact ⟨first, hmem, by simp⟩
    · exact ⟨e, he, by rw [hpre]; simp⟩

lemma classify_cons {cmd first : String} {rest : List String}
    (h : shlexSplit cmd = some (first :: rest)) :
    classify cmd =
      (if first == "sudo" && !rest.isEmpty then ⟨true, .ELEVATED_PRIVILEGE⟩
       else if DESTRUCTIVE_COMMANDS.any (fun d =>
           first == d || (d ++ " ").data.isPrefixOf (stripChars cmd.data)) then
         ⟨true, .MATCHED_KEYWORD⟩
       else ⟨false, .NONE⟩) := by
  have hne : ¬ (cmd = "") := by
    intro he
    rw [he, show shlexSplit "" = some [] from by decide] at h
    simp at h
  unfold classify
  rw [if_neg hne, h]

/-! ## Claim theorems -/

/-- C1: whenever the inference stage produces no usable command
(`query_ollama` returns absent — connection failure, timeout, HTTP error,
decode failure, empty response or sentinel), the process exits with status 1
and the executor is never invoked. -/
theorem C1_inference_failure_no_execution (o : HttpOutcome)
    (interactive yes : Bool) (inp : PromptAnswer) (res : ExecutionResult)
    (h : query_ollama o = none) :
    mainRun (query_ollama o) interactive yes inp res = ⟨1, false, false, false⟩ := by
  rw [h]
  rfl

/-- Witness for C1: a timeout run with every flag set still exits 1 without
executing. -/
theorem C1_witness :
    query_ollama .timeout = none ∧
    mainRun (query_ollama .timeout) true true .interrupted ⟨"", "", 0⟩ =
      ⟨1, false, false, false⟩ :=
  ⟨rfl, C1_inference_failure_no_execution .timeout true true .interrupted
    ⟨"", "", 0⟩ rfl⟩

/-- C5 (code bug): a response whose first non-empty line is a command wrapped
in triple backticks with a `bash` tag is NOT normalized to the enclosed
command: because the skip-prefix tuple of src/ai.py:116 contains the backtick,
any such line is skipped as explanatory and the fence-stripping branch
(src/ai.py:117-122, embedded as `transformLine`) is unreachable — the run
yields no candidate, although `transformLine` itself would have stripped the
fence and tag exactly as the claim describes. -/
theorem C5_fence_line_skipped :
    normalizeResponse ("```bash ls -l```") = none ∧
    shouldSkipL (stripChars (("```bash ls -l```").data)) = true ∧
    transformLine (stripChars (("```bash ls -l```").data)) = ("ls -l").data := by
  refine ⟨by decide, by decide, by decide⟩

/-- Counterexample for C6 as stated: a response containing the literal
substring `ERROR:` on a later line still normalizes to a present command,
because src/ai.py:126 tests the extracted candidate, not the raw response. -/
theorem C6_counterexample :
    containsSub (("echo hi\nERROR: x").data) (("ERROR:").data) = true ∧
    normalizeResponse ("echo hi\nERROR: x") = some ("echo hi") := by
  refine ⟨by decide, by decide⟩

/-- C6 (amended): whenever the extracted candidate contains the literal
substring `ERROR:`, normalization yields an absent result; equivalently, a
present normalization result never contains the sentinel. -/
theorem C6_sentinel_in_candidate (raw : String) :
    (containsSub (extractCandidate (splitLines (stripChars raw.data)))
        (("ERROR:").data) = true → normalizeResponse raw = none) ∧
    (∀ cmd : String, normalizeResponse raw = some cmd →
      containsSub cmd.data (("ERROR:").data) = false) := by
  constructor
  · intro hc
    unfold normalizeResponse
    dsimp only
    rw [hc]
    simp
  · intro cmd h
    exact (normalizeResponse_some h).2

/-- Witness for C6: the model's own failure sentinel is extracted as the
candidate and yields an absent result. -/
theorem C6_witness :
    containsSub (extractCandidate (splitLines (stripChars
        (("ERROR: Could not generate command.").data)))) (("ERROR:").data) = true ∧
    normalizeResponse ("ERROR: Could not generate command.") = none :=
  ⟨by decide,
   (C6_sentinel_in_candidate ("ERROR: Could not generate command.")).1 (by decide)⟩

/-- Counterexample for C8 as stated: with no environment variables set and an
existing configuration file that supplies neither recognized variable, both
compiled-in defaults are returned but the informational diagnostic is NOT
emitted — src/ai.py:42 gates the diagnostic on the file not existing, not on
whether it supplied a value. -/
theorem C8_counterexample :
    getenv [] ("OLLAMA_API_URL") = none ∧
    getenv [("OTHER", "x")] ("OLLAMA_API_URL") = none ∧
    getenv [("OTHER", "x")] ("OLLAMA_DEFAULT_MODEL") = none ∧
    load_configuration [] true [("OTHER", "x")] =
      ⟨DEFAULT_OLLAMA_API_URL, DEFAULT_OLLAMA_MODEL, false⟩ := by
  refine ⟨by decide, by decide, by decide, by decide⟩

/-- C2: the confirmation gate confirms execution iff interactive mode was
requested and either auto-confirm was requested or the prompt answer lowers
to exactly `y`; with `interactive = false` the result is always Cancelled
with no prompt; with interactive mode, a destructive verdict and
auto-confirm, it is Confirmed with a warning but no prompt; a prompt is
shown iff interactive mode is on and auto-confirm is off. -/
theorem C2_confirmation_gate (destructive interactive yes : Bool)
    (inp : PromptAnswer) :
    ((confirmationGate destructive interactive yes inp).decision = .Confirmed ↔
      (interactive = true ∧ (yes = true ∨ answerIsYes inp = true))) ∧
    (interactive = false →
      confirmationGate destructive interactive yes inp =
        ⟨.Cancelled, false, false, false⟩) ∧
    (interactive = true → destructive = true → yes = true →
      confirmationGate destructive interactive yes inp =
        ⟨.Confirmed, false, true, false⟩) ∧
    ((confirmationGate destructive interactive yes inp).promptShown =
      (interactive && !yes)) := by
  cases inp with
  | interrupted =>
    cases destructive <;> cases interactive <;> cases yes <;>
      simp [confirmationGate, answerIsYes]
  | answer s =>
    by_cases hy : (pyLower s == "y") = true <;>
      cases destructive <;> cases interactive <;> cases yes <;>
        simp [confirmationGate, answerIsYes, hy]

/-- Witness for C2 at the spec's test points: destructive with auto-confirm
is confirmed without a prompt, non-interactive is cancelled, answer `n` is
cancelled, answer `Y` is confirmed. -/
theorem C2_witness :
    confirmationGate true true true .interrupted = ⟨.Confirmed, false, true, false⟩ ∧
    confirmationGate true false true .interrupted = ⟨.Cancelled, false, false, false⟩ ∧
    (confirmationGate false true false (.answer ("n"))).decision = .Cancelled ∧
    (confirmationGate false true false (.answer ("Y"))).decision = .Confirmed :=
  ⟨(C2_confirmation_gate true true true .interrupted).2.2.1 rfl rfl rfl,
   (C2_confirmation_gate true false true .interrupted).2.1 rfl,
   by decide,
   (C2_confirmation_gate false true false (.answer ("Y"))).1.mpr
     ⟨rfl, Or.inr (by decide)⟩⟩

/-- C4: whenever shell-word tokenization fails (unbalanced quoting), the
classifier returns destructive with reason UNPARSEABLE instead of raising or
returning not destructive. -/
theorem C4_unparseable_destructive (cmd : String)
    (h : shlexSplit cmd = none) :
    classify cmd = ⟨true, .UNPARSEABLE⟩ ∧ is_destructive cmd = true := by
  have hne : ¬ (cmd = "") := by
    intro he
    rw [he] at h
    exact absurd h (by decide)
  have hc : classify cmd = ⟨true, .UNPARSEABLE⟩ := by
    unfold classify
    rw [if_neg hne, h]
  exact ⟨hc, by rw [is_destructive, hc]⟩

/-- Witness for C4: an unterminated double quote tokenizes to a failure and
is classified destructive/UNPARSEABLE. -/
theorem C4_witness :
    shlexSplit ("echo \"unterminated") = none ∧
    classify ("echo \"unterminated") = ⟨true, .UNPARSEABLE⟩ :=
  ⟨by decide, (C4_unparseable_destructive ("echo \"unterminated") (by decide)).1⟩

/-- C3: for every command whose tokenization succeeds with at least one
token, classification is destructive iff the first token is `sudo` with a
further token (reason ELEVATED_PRIVILEGE), or the first token equals a table
entry, or the stripped command starts with a table entry followed by a space
(reason MATCHED_KEYWORD); otherwise it is not destructive. -/
theorem C3_classifier (cmd first : String) (rest : List String)
    (h : shlexSplit cmd = some (first :: rest)) :
    (is_destructive cmd = true ↔
      ((first = "sudo" ∧ rest ≠ []) ∨ first ∈ DESTRUCTIVE_COMMANDS ∨
        ∃ e ∈ DESTRUCTIVE_COMMANDS,
          (e ++ " ").data.isPrefixOf (stripChars cmd.data) = true)) ∧
    (first = "sudo" → rest ≠ [] → classify cmd = ⟨true, .ELEVATED_PRIVILEGE⟩) ∧
    (¬ (first = "sudo" ∧ rest ≠ []) →
      (first ∈ DESTRUCTIVE_COMMANDS ∨
        ∃ e ∈ DESTRUCTIVE_COMMANDS,
          (e ++ " ").data.isPrefixOf (stripChars cmd.data) = true) →
      classify cmd = ⟨true, .MATCHED_KEYWORD⟩) := by
  rw [is_destructive, classify_cons h]
  by_cases h1 : first = "sudo" ∧ rest ≠ []
  · have hb : (first == "sudo" && !rest.isEmpty) = true := by
      simp [h1.1, h1.2]
    rw [if_pos hb]
    refine ⟨by simp [h1], fun _ _ => rfl, fun hcon _ => absurd h1 hcon⟩
  · have hb : ¬ ((first == "sudo" && !rest.isEmpty) = true) := by
      intro hcon
      rcases Bool.and_eq_true_iff.mp hcon with ⟨hs, hr⟩
      refine h1 ⟨eq_of_beq hs, ?_⟩
      intro hnil
      rw [hnil] at hr
      exact absurd hr (by decide)
    rw [if_neg hb]
    by_cases h2 : (DESTRUCTIVE_COMMANDS.any (fun d =>
        first == d || (d ++ " ").data.isPrefixOf (stripChars cmd.data))) = true
    · rw [if_pos h2]
      refine ⟨?_, fun hs hr => absurd ⟨hs, hr⟩ h1, fun _ _ => rfl⟩
      simp only [true_iff, show (DestructiveVerdict.mk true .MATCHED_KEYWORD).isDestructive = true from rfl]
      exact Or.inr ((destructive_any_iff cmd first).mp h2)
    · rw [if_neg h2]
      refine ⟨?_, fun hs hr => absurd ⟨hs, hr⟩ h1, fun _ hd => absurd ((destructive_any_iff cmd first).mpr hd) h2⟩
      constructor
      · intro habs
        exact absurd habs (by decide)
      · rintro (hsudo | hd)
        · exact absurd hsudo h1
        · exact absurd ((destructive_any_iff cmd first).mpr hd) h2

/-- Witness for C3 at the spec's test points: `rm -rf /tmp/x` destructive by
keyword, `sudo apt upgrade` destructive by elevated privilege, `ls -la` not
destructive. -/
theorem C3_witness :
    shlexSplit ("sudo apt upgrade") = some ["sudo", "apt", "upgrade"] ∧
    is_destructive ("sudo apt upgrade") = true ∧
    classify ("sudo apt upgrade") = ⟨true, .ELEVATED_PRIVILEGE⟩ ∧
    is_destructive ("rm -rf /tmp/x") = true ∧
    classify ("rm -rf /tmp/x") = ⟨true, .MATCHED_KEYWORD⟩ ∧
    is_destructive ("ls -la") = false :=
  ⟨by decide,
   (C3_classifier ("sudo apt upgrade") ("sudo") ["apt", "upgrade"]
       (by decide)).1.mpr (Or.inl ⟨rfl, by decide⟩),
   (C3_classifier ("sudo apt upgrade") ("sudo") ["apt", "upgrade"]
       (by decide)).2.1 rfl (by decide),
   by decide, by decide, by decide⟩

/-- C7: a well-formed payload whose `response` field is a single bare command
line (nonempty after trimming, no newline, not matching the skip prefixes —
which include fences — and without the `ERROR:` sentinel) normalizes to that
command unchanged up to whitespace trimming. -/
theorem C7_bare_command (raw : String)
    (h1 : stripChars raw.data ≠ [])
    (h2 : ('\n') ∉ stripChars raw.data)
    (h3 : shouldSkipL (stripChars raw.data) = false)
    (h4 : containsSub (stripChars raw.data) (("ERROR:").data) = false) :
    normalizeResponse raw = some (String.mk (stripChars raw.data)) := by
  unfold normalizeResponse
  dsimp only
  rw [splitLines_single h2,
      extractCandidate_single h1 h3 (stripChars_idem raw.data),
      transformLine_id h3]
  have hemp : (stripChars raw.data).isEmpty = false := by
    cases hc : stripChars raw.data with
    | nil => exact absurd hc h1
    | cons x xs => rfl
  rw [hemp, h4]
  rfl

/-- Witness for C7: a padded bare command is returned trimmed. -/
theorem C7_witness :
    stripChars (("  ls -l  ").data) = ("ls -l").data ∧
    normalizeResponse ("  ls -l  ") =
      some (String.mk (stripChars (("  ls -l  ").data))) :=
  ⟨by decide,
   C7_bare_command ("  ls -l  ") (by decide) (by decide) (by decide) (by decide)⟩

/-- C9: whenever a candidate command was produced, the process exit status is
0 — whether the run was cancelled (non-interactive mode, a declined
confirmation, or an interrupt during a prompt) or completed execution — and
an executed command with non-zero exit code produces the warning without
changing the tool's exit status. -/
theorem C9_candidate_exit_zero (o : HttpOutcome) (cmd : String)
    (interactive yes : Bool) (inp : PromptAnswer) (res : ExecutionResult)
    (h : query_ollama o = some cmd) :
    (mainRun (query_ollama o) interactive yes inp res).exitCode = 0 ∧
    ((mainRun (query_ollama o) interactive yes inp res).executed = true →
      res.returncode ≠ 0 →
      (mainRun (query_ollama o) interactive yes inp res).warnedNonZero = true) := by
  have hcmd : cmd ≠ "" := by
    cases o with
    | ok raw => exact (normalizeResponse_some h).1
    | connectionError => exact absurd h (by simp [query_ollama])
    | timeout => exact absurd h (by simp [query_ollama])
    | requestError => exact absurd h (by simp [query_ollama])
    | decodeError => exact absurd h (by simp [query_ollama])
  rw [h]
  unfold mainRun
  dsimp only
  rw [if_neg hcmd]
  cases hg : (confirmationGate (is_destructive cmd) interactive yes inp).decision with
  | Confirmed =>
    refine ⟨rfl, fun _ hnz => ?_⟩
    simpa [execute_command, bne_iff_ne] using hnz
  | Cancelled =>
    exact ⟨rfl, fun hex _ => by simp at hex⟩

/-- Witness for C9: a confirmed run whose executed command returns 2 still
exits 0, with the non-zero warning emitted. -/
theorem C9_witness :
    query_ollama (.ok ("ls -l")) = some ("ls -l") ∧
    (mainRun (query_ollama (.ok ("ls -l"))) true true .interrupted
        ⟨"", "", 2⟩).exitCode = 0 ∧
    ((mainRun (query_ollama (.ok ("ls -l"))) true true .interrupted
        ⟨"", "", 2⟩).executed = true →
      (⟨"", "", 2⟩ : ExecutionResult).returncode ≠ 0 →
      (mainRun (query_ollama (.ok ("ls -l"))) true true .interrupted
        ⟨"", "", 2⟩).warnedNonZero = true) :=
  ⟨by decide,
   (C9_candidate_exit_zero (.ok ("ls -l")) ("ls -l") true true .interrupted
       ⟨"", "", 2⟩ (by decide)).1,
   (C9_candidate_exit_zero (.ok ("ls -l")) ("ls -l") true true .interrupted
       ⟨"", "", 2⟩ (by decide)).2⟩

/-- C10: the classifier examines only the first shell token (plus the `sudo`
check and the literal leading-substring match), so commands whose destructive
keyword appears only after a shell separator or leading command — such as
`ls; rm -rf /` and `true && rm -rf /`, both of which contain `rm ` — are
classified not destructive. -/
theorem C10_first_token_only :
    (∀ (cmd first : String) (rest : List String),
      shlexSplit cmd = some (first :: rest) →
      first ≠ "sudo" →
      first ∉ DESTRUCTIVE_COMMANDS →
      (∀ e ∈ DESTRUCTIVE_COMMANDS,
        (e ++ " ").data.isPrefixOf (stripChars cmd.data) = false) →
      is_destructive cmd = false) ∧
    is_destructive ("ls; rm -rf /") = false ∧
    is_destructive ("true && rm -rf /") = false ∧
    containsSub (("ls; rm -rf /").data) (("rm ").data) = true ∧
    containsSub (("true && rm -rf /").data) (("rm ").data) = true := by
  refine ⟨?_, by decide, by decide, by decide, by decide⟩
  intro cmd first rest h hs hmem hpre
  rw [is_destructive, classify_cons h]
  have hb1 : (first == "sudo" && !rest.isEmpty) = false := by
    simp [hs]
  have hb2 : (DESTRUCTIVE_COMMANDS.any (fun d =>
      first == d || (d ++ " ").data.isPrefixOf (stripChars cmd.data))) = false := by
    rw [Bool.eq_false_iff]
    intro hcon
    rcases (destructive_any_iff cmd first).mp hcon with hm | ⟨e, he, hp⟩
    · exact hmem hm
    · rw [hpre e he] at hp
      exact absurd hp (by decide)
  rw [hb1, hb2]
  rfl

/-- Witness for C10: the separated command is classified not destructive
through the general first-token characterization. -/
theorem C10_witness : is_destructive ("ls; rm -rf /") = false :=
  (C10_first_token_only).1 ("ls; rm -rf /") ("ls;") ["rm", "-rf", "/"]
    (by decide) (by decide) (by decide) (by decide)

lemma find?_append_some {α : Type} {p : α → Bool} {l1 : List α} (l2 : List α)
    {a : α} (h : l1.find? p = some a) : (l1 ++ l2).find? p = some a := by
  induction l1 with
  | nil => simp [List.find?] at h
  | cons x xs ih =>
    by_cases hp : p x = true
    · rw [List.find?_cons_of_pos _ hp] at h
      rw [List.cons_append, List.find?_cons_of_pos _ hp]
      exact h
    · rw [List.find?_cons_of_neg _ (by simpa using hp)] at h
      rw [List.cons_append, List.find?_cons_of_neg _ (by simpa using hp)]
      exact ih h

lemma find?_append_none {α : Type} {p : α → Bool} {l1 l2 : List α}
    (h1 : l1.find? p = none) (h2 : l2.find? p = none) :
    (l1 ++ l2).find? p = none := by
  rw [List.find?_eq_none] at h1 h2 ⊢
  intro x hx
  rcases List.mem_append.mp hx with hm | hm
  · exact h1 x hm
  · exact h2 x hm

lemma getenv_load_dotenv_of_some {env fileVars : List (String × String)}
    {k v : String} (h : getenv env k = some v) :
    getenv (load_dotenv env fileVars) k = some v := by
  unfold getenv at h ⊢
  unfold load_dotenv
  rcases hf : List.find? (fun p => p.1 == k) env with _ | p
  · rw [hf] at h
    simp at h
  · rw [hf] at h
    rw [find?_append_some _ hf]
    exact h

lemma getenv_load_dotenv_none {env fileVars : List (String × String)}
    {k : String} (h1 : getenv env k = none) (h2 : getenv fileVars k = none) :
    getenv (load_dotenv env fileVars) k = none := by
  unfold getenv at h1 h2 ⊢
  unfold load_dotenv
  have hf1 : List.find? (fun p => p.1 == k) env = none := by
    rcases hx : List.find? (fun p => p.1 == k) env with _ | p
    · exact hx
    · rw [hx] at h1
      simp at h1
  have hf2 : List.find? (fun p => p.1 == k) fileVars = none := by
    rcases hx : List.find? (fun p => p.1 == k) fileVars with _ | p
    · exact hx
    · rw [hx] at h2
      simp at h2
  have hf3 : List.find? (fun p => p.1 == k)
      (fileVars.filter (fun p => (getenv env p.1).isNone)) = none := by
    rw [List.find?_eq_none] at hf2 ⊢
    intro x hx
    exact hf2 x (List.mem_of_mem_filter hx)
  rw [find?_append_none hf1 hf3]
  rfl

/-- C8 (amended): environment variables take precedence — a recognized
variable set in the process environment is returned even when the
configuration file (whose loading never overrides set variables) assigns a
different value; and when neither the environment nor the file supplies a
value, both compiled-in defaults are returned, with the informational
diagnostic emitted exactly when no configuration file exists (an existing
file that supplies nothing suppresses the diagnostic). -/
theorem C8_precedence (env fileVars : List (String × String))
    (dotenvExists : Bool) :
    (∀ v, getenv env ("OLLAMA_API_URL") = some v →
      (load_configuration env dotenvExists fileVars).apiUrl = v) ∧
    (∀ v, getenv env ("OLLAMA_DEFAULT_MODEL") = some v →
      (load_configuration env dotenvExists fileVars).defaultModel = v) ∧
    (getenv env ("OLLAMA_API_URL") = none →
      getenv fileVars ("OLLAMA_API_URL") = none →
      getenv env ("OLLAMA_DEFAULT_MODEL") = none →
      getenv fileVars ("OLLAMA_DEFAULT_MODEL") = none →
      load_configuration env dotenvExists fileVars =
        ⟨DEFAULT_OLLAMA_API_URL, DEFAULT_OLLAMA_MODEL, !dotenvExists⟩) := by
  cases dotenvExists with
  | false =>
    refine ⟨fun v hv => ?_, fun v hv => ?_, fun ha hfa hm hfm => ?_⟩
    · unfold load_configuration
      simp only [Bool.false_eq_true, if_false]
      rw [hv]
      rfl
    · unfold load_configuration
      simp only [Bool.false_eq_true, if_false]
      rw [hv]
      rfl
    · unfold load_configuration
      simp only [Bool.false_eq_true, if_false]
      rw [ha, hm]
      decide
  | true =>
    refine ⟨fun v hv => ?_, fun v hv => ?_, fun ha hfa hm hfm => ?_⟩
    · unfold load_configuration
      simp only [if_true]
      rw [getenv_load_dotenv_of_some hv]
      rfl
    · unfold load_configuration
      simp only [if_true]
      rw [getenv_load_dotenv_of_some hv]
      rfl
    · unfold load_configuration
      simp only [if_true]
      rw [getenv_load_dotenv_none ha hfa, getenv_load_dotenv_none hm hfm]
      decide

/-- Witness for C8: an environment value wins over a differing file value,
and with nothing set and no file the defaults are returned with the
diagnostic. -/
theorem C8_witness :
    getenv [("OLLAMA_API_URL", "http://example:1/api")] ("OLLAMA_API_URL") =
      some ("http://example:1/api") ∧
    (load_configuration [("OLLAMA_API_URL", "http://example:1/api")] true
        [("OLLAMA_API_URL", "http://other:2/api")]).apiUrl =
      ("http://example:1/api") ∧
    load_configuration [] false [] =
      ⟨DEFAULT_OLLAMA_API_URL, DEFAULT_OLLAMA_MODEL, true⟩ :=
  ⟨by decide,
   (C8_precedence [("OLLAMA_API_URL", "http://example:1/api")]
       [("OLLAMA_API_URL", "http://other:2/api")] true).1 _ (by decide),
   (C8_precedence [] [] false).2.2 (by decide) (by decide) (by decide)
     (by decide)⟩

end AiCli
